import Mathlib

/-!
Verification of the `trier` Go library (package `trier`, file `trier.go`).

The library is a fluent error-accumulation chain: a `Trier` holds a field
`err *error` (a pointer to a Go `error` interface value) and exposes methods
`Try`, `TryIfErr`, `TryRetry`, `TryRetryIfErr`, `TryRetryBackoff`,
`TryRetryBackoffIfErr`, `TryJoin`, `Nil` and `Err`.

Shallow embedding conventions:
- a Go `error` interface value is `Option GoErr` (`none` = the nil error);
- the pointer field `err *error` is `Option (Option GoErr)`
  (`none` = nil pointer, `some v` = a pointer whose pointee is `v`);
- assigning through the pointer (`*t.err = v`) when the pointer is nil is a
  nil-pointer dereference, which panics at runtime; method results therefore
  live in `MRes`, which has a `panicked` constructor;
- a caller-supplied unit of work `fn func(args ...any) error` is modelled by
  the sequence of results of its successive invocations within one method
  call, `fn : Nat → Option GoErr` (`fn i` = result of the i-th invocation);
  every method result also reports how many times the unit was invoked;
- `errors.Join(a, b)` (Go 1.20 standard library) discards nil arguments,
  returns nil when both are nil, and otherwise returns a fresh wrapper whose
  `Error()` text is the non-nil arguments' texts joined by a newline, in
  argument order;
- `time.Sleep(backoff(i))` only blocks the calling thread; the wait has no
  effect on the chain state, so the model computes `backoff i` and discards it;
- the `limit <= 0` branch of `TryRetry`/`TryRetryIfErr` loops until the unit
  first succeeds, which may never happen; the model runs that loop on explicit
  fuel and reports fuel exhaustion with `MRes.fuelOut`.
-/

/-- A non-nil Go error value: either `errors.New msg`, or the result of
`errors.Join` applied to one or two non-nil errors. -/
inductive GoErr where
  | new : String → GoErr
  | join1 : GoErr → GoErr
  | join2 : GoErr → GoErr → GoErr
deriving DecidableEq

/-- The `Error()` text of an error value.  A joined error formats as the
members' texts concatenated with a newline between them, in order. -/
def GoErr.message : GoErr → String
  | .new s => s
  | .join1 a => a.message
  | .join2 a b => a.message ++ "\n" ++ b.message

/-- `errors.Join(a, b)`: nil arguments are discarded; if both are nil the
result is nil, otherwise a fresh wrapper around the non-nil arguments in
argument order. -/
def goJoin : Option GoErr → Option GoErr → Option GoErr
  | none, none => none
  | some a, none => some (.join1 a)
  | none, some b => some (.join1 b)
  | some a, some b => some (.join2 a b)

/-- `msg` occurs contiguously inside `big` (substring containment of the
textual representation). -/
def containsMsg (big msg : String) : Prop := msg.data <:+: big.data

/-- The chain state: Go struct `Trier { err *error }`.
`none` = nil pointer (no slot), `some v` = pointer to the error value `v`. -/
structure Trier where
  err : Option (Option GoErr)
deriving DecidableEq

/-- `NewTrier()` returns `&Trier{}`: the pointer field is nil. -/
def NewTrier : Trier := ⟨none⟩

/-- Result of one chain-method call: normal return with the new state and the
number of unit invocations, a runtime panic (nil-pointer dereference) after
that many invocations, or exhaustion of the model fuel while the Go loop is
still running. -/
inductive MRes where
  | ok : Trier → Nat → MRes
  | panicked : Nat → MRes
  | fuelOut : Nat → MRes
deriving DecidableEq

/-- Result of `Err()`: the Go method body is `return *t.err`, which panics
when the pointer is nil. -/
inductive ErrRes where
  | panicked : ErrRes
  | val : Option GoErr → ErrRes
deriving DecidableEq

/-- `*slot = v`: write through the pointer; `none` means the pointer was nil
and the write panics. -/
def derefWrite (slot : Option (Option GoErr)) (v : Option GoErr) :
    Option (Option (Option GoErr)) :=
  match slot with
  | none => none
  | some _ => some (some v)

/-- `Try`: short-circuit when `t.err != nil`; otherwise invoke the unit once
and, on a non-nil result, store it (`t.err = &err` when the pointer is nil;
`*t.err = err` otherwise — both leave the slot holding the new error). -/
def Trier.Try (t : Trier) (fn : Nat → Option GoErr) : Trier × Nat :=
  match t.err with
  | some _ => (t, 0)
  | none =>
    match fn 0 with
    | none => (t, 1)
    | some x => (⟨some (some x)⟩, 1)

/-- `TryIfErr`: like `Try`, then, when an error is now stored, replace it by
`errFn(*t.err)` (`err := errFn(*t.err); t.err = &err`). -/
def Trier.TryIfErr (t : Trier) (errFn : Option GoErr → Option GoErr)
    (fn : Nat → Option GoErr) : Trier × Nat :=
  match t.err with
  | some _ => (t, 0)
  | none =>
    match fn 0 with
    | none => (t, 1)
    | some x => (⟨some (errFn (some x))⟩, 1)

/-- The `limit <= 0` loop of `TryRetry`/`TryRetryIfErr`: `for { if fn() == nil
break }`.  It never touches `t.err`; each fuel step is one invocation, `i`
counts invocations already made. -/
def retryForever (t : Trier) (fn : Nat → Option GoErr) : Nat → Nat → MRes
  | i, 0 => .fuelOut i
  | i, fuel + 1 =>
    match fn i with
    | none => .ok t (i + 1)
    | some _ => retryForever t fn (i + 1) fuel

/-- The `limit > 0` loop of `TryRetry`: on a failing invocation,
`if t.err != nil { *t.err = errors.Join(*t.err, err) } else { *t.err = err }`;
the else branch writes through the nil pointer and panics.  `i` counts
invocations made, `rem` is the number of loop iterations left. -/
def retryLoop (fn : Nat → Option GoErr) :
    Option (Option GoErr) → Nat → Nat → MRes
  | slot, i, 0 => .ok ⟨slot⟩ i
  | slot, i, rem + 1 =>
    match fn i with
    | none => .ok ⟨slot⟩ (i + 1)
    | some e =>
      match derefWrite slot (match slot with
        | some cur => goJoin cur (some e)
        | none => some e) with
      | none => .panicked (i + 1)
      | some slot2 => retryLoop fn slot2 (i + 1) rem

/-- `TryRetry(limit, fn)`: short-circuit on a pending slot; `limit <= 0` runs
the unbounded loop; `limit > 0` runs the bounded accumulation loop. -/
def Trier.TryRetry (t : Trier) (limit : Int) (fn : Nat → Option GoErr)
    (fuel : Nat) : MRes :=
  match t.err with
  | some _ => .ok t 0
  | none =>
    if limit ≤ 0 then retryForever t fn 0 fuel
    else retryLoop fn t.err 0 limit.toNat

/-- The `limit > 0` loop of `TryRetryIfErr`: as `retryLoop` except the join
branch stores `errors.Join(*t.err, errFn(err))`; the else branch is still the
bare `*t.err = err`. -/
def retryLoopIfErr (errFn : Option GoErr → Option GoErr)
    (fn : Nat → Option GoErr) : Option (Option GoErr) → Nat → Nat → MRes
  | slot, i, 0 => .ok ⟨slot⟩ i
  | slot, i, rem + 1 =>
    match fn i with
    | none => .ok ⟨slot⟩ (i + 1)
    | some e =>
      match derefWrite slot (match slot with
        | some cur => goJoin cur (errFn (some e))
        | none => some e) with
      | none => .panicked (i + 1)
      | some slot2 => retryLoopIfErr errFn fn slot2 (i + 1) rem

/-- `TryRetryIfErr(limit, errFn, fn)`. -/
def Trier.TryRetryIfErr (t : Trier) (limit : Int)
    (errFn : Option GoErr → Option GoErr) (fn : Nat → Option GoErr)
    (fuel : Nat) : MRes :=
  match t.err with
  | some _ => .ok t 0
  | none =>
    if limit ≤ 0 then retryForever t fn 0 fuel
    else retryLoopIfErr errFn fn t.err 0 limit.toNat

/-- The sentinel text of `errors.New` in the `limit <= 0` branch of the
backoff methods. -/
def backoffLimitMsg : String :=
  "retry backoff attempted with limit less than or equal to zero"

/-- The `limit > 0` loop of `TryRetryBackoff`: as `retryLoop`, plus
`time.Sleep(backoff(i))` after each failing iteration; the computed duration
does not affect the chain state. -/
def retryLoopBackoff (backoff : Nat → Nat) (fn : Nat → Option GoErr) :
    Option (Option GoErr) → Nat → Nat → MRes
  | slot, i, 0 => .ok ⟨slot⟩ i
  | slot, i, rem + 1 =>
    match fn i with
    | none => .ok ⟨slot⟩ (i + 1)
    | some e =>
      match derefWrite slot (match slot with
        | some cur => goJoin cur (some e)
        | none => some e) with
      | none => .panicked (i + 1)
      | some slot2 =>
        let _ := backoff i
        retryLoopBackoff backoff fn slot2 (i + 1) rem

/-- `TryRetryBackoff(limit, backoff, fn)`: short-circuit on a pending slot;
when `limit <= 0` the body executes `*t.err = errors.New(...)` — a write
through the pointer, which at that point is necessarily nil (the guard was
passed), hence a panic before any unit invocation. -/
def Trier.TryRetryBackoff (t : Trier) (limit : Int) (backoff : Nat → Nat)
    (fn : Nat → Option GoErr) : MRes :=
  match t.err with
  | some _ => .ok t 0
  | none =>
    if limit ≤ 0 then
      match derefWrite none (some (GoErr.new backoffLimitMsg)) with
      | none => .panicked 0
      | some slot => .ok ⟨slot⟩ 0
    else retryLoopBackoff backoff fn t.err 0 limit.toNat

/-- The `limit > 0` loop of `TryRetryBackoffIfErr`: join branch uses
`errFn`, plus the sleep. -/
def retryLoopBackoffIfErr (errFn : Option GoErr → Option GoErr)
    (backoff : Nat → Nat) (fn : Nat → Option GoErr) :
    Option (Option GoErr) → Nat → Nat → MRes
  | slot, i, 0 => .ok ⟨slot⟩ i
  | slot, i, rem + 1 =>
    match fn i with
    | none => .ok ⟨slot⟩ (i + 1)
    | some e =>
      match derefWrite slot (match slot with
        | some cur => goJoin cur (errFn (some e))
        | none => some e) with
      | none => .panicked (i + 1)
      | some slot2 =>
        let _ := backoff i
        retryLoopBackoffIfErr errFn backoff fn slot2 (i + 1) rem

/-- `TryRetryBackoffIfErr(limit, errFn, backoff, fn)`. -/
def Trier.TryRetryBackoffIfErr (t : Trier) (limit : Int)
    (errFn : Option GoErr → Option GoErr) (backoff : Nat → Nat)
    (fn : Nat → Option GoErr) : MRes :=
  match t.err with
  | some _ => .ok t 0
  | none =>
    if limit ≤ 0 then
      match derefWrite none (some (GoErr.new backoffLimitMsg)) with
      | none => .panicked 0
      | some slot => .ok ⟨slot⟩ 0
    else retryLoopBackoffIfErr errFn backoff fn t.err 0 limit.toNat

/-- `TryJoin(fn)`: always invoke the unit; then
`if t.err != nil { x := errors.Join(*t.err, err); t.err = &x }
else { t.err = &err }` — note the else branch stores a pointer to the unit's
result even when that result is the nil error. -/
def Trier.TryJoin (t : Trier) (fn : Nat → Option GoErr) : Trier × Nat :=
  let e := fn 0
  match t.err with
  | some cur => (⟨some (goJoin cur e)⟩, 1)
  | none => (⟨some e⟩, 1)

/-- `Nil()`: `if t.err != nil { t.err = nil }`. -/
def Trier.Nil (t : Trier) : Trier :=
  match t.err with
  | some _ => ⟨none⟩
  | none => t

/-- `Err()`: `return *t.err` — panics when the pointer is nil. -/
def Trier.Err (t : Trier) : ErrRes :=
  match t.err with
  | none => .panicked
  | some v => .val v

/-- One attempt-class call, abstracting over which of the six methods is used
and with which caller-supplied arguments (unit script, transform, limit,
backoff; retry calls carry the model fuel). -/
inductive Attempt where
  | Try : (Nat → Option GoErr) → Attempt
  | TryIfErr : (Option GoErr → Option GoErr) → (Nat → Option GoErr) → Attempt
  | TryRetry : Int → (Nat → Option GoErr) → Nat → Attempt
  | TryRetryIfErr : Int → (Option GoErr → Option GoErr) →
      (Nat → Option GoErr) → Nat → Attempt
  | TryRetryBackoff : Int → (Nat → Nat) → (Nat → Option GoErr) → Attempt
  | TryRetryBackoffIfErr : Int → (Option GoErr → Option GoErr) →
      (Nat → Nat) → (Nat → Option GoErr) → Attempt

/-- Run one attempt-class call on a chain. -/
def runAttempt (t : Trier) : Attempt → MRes
  | .Try fn => .ok (t.Try fn).1 (t.Try fn).2
  | .TryIfErr errFn fn => .ok (t.TryIfErr errFn fn).1 (t.TryIfErr errFn fn).2
  | .TryRetry limit fn fuel => t.TryRetry limit fn fuel
  | .TryRetryIfErr limit errFn fn fuel => t.TryRetryIfErr limit errFn fn fuel
  | .TryRetryBackoff limit backoff fn => t.TryRetryBackoff limit backoff fn
  | .TryRetryBackoffIfErr limit errFn backoff fn =>
      t.TryRetryBackoffIfErr limit errFn backoff fn

/-- Run a sequence of attempt-class calls, threading the chain state and
adding up the unit invocations; a panic or fuel exhaustion stops the run. -/
def runAttempts (t : Trier) : List Attempt → MRes
  | [] => .ok t 0
  | a :: rest =>
    match runAttempt t a with
    | .ok t2 n =>
      match runAttempts t2 rest with
      | .ok t3 m => .ok t3 (n + m)
      | .panicked m => .panicked (n + m)
      | .fuelOut m => .fuelOut (n + m)
    | .panicked n => .panicked n
    | .fuelOut n => .fuelOut n

/-- A chain whose slot holds the pending failure `errors.New "boom"`. -/
def trierBoom : Trier := ⟨some (some (GoErr.new "boom"))⟩

/-- A chain whose slot holds the pending failure "failed passOrFail",
as left by `Try(passOrFail, true)` in the repository's tests. -/
def trierPassOrFail : Trier := ⟨some (some (GoErr.new "failed passOrFail"))⟩

/-- A unit of work that fails with "failedIfString" on every invocation, as
`failIfString` does on a string argument in the repository's tests. -/
def unitIfString : Nat → Option GoErr := fun _ => some (GoErr.new "failedIfString")

/-- A unit of work that succeeds on every invocation. -/
def unitOk : Nat → Option GoErr := fun _ => none

/-- A unit of work that fails with message "e<i>" on every invocation. -/
def unitFail : Nat → Option GoErr := fun i => some (GoErr.new ("e" ++ toString i))

/-- A unit of work that fails twice and then succeeds. -/
def unitFailTwice : Nat → Option GoErr :=
  fun i => if i < 2 then some (GoErr.new ("e" ++ toString i)) else none

/-- A backoff function returning a zero duration for every retry index. -/
def backoffZero : Nat → Nat := fun _ => 0

/-- A transform that returns the error unchanged. -/
def errFnId : Option GoErr → Option GoErr := fun e => e

theorem data_append (a b : String) : (a ++ b).data = a.data ++ b.data := by
  cases a; cases b; rfl

theorem runAttempt_shortCircuit (t : Trier) (pf : Option GoErr)
    (h : t.err = some pf) (a : Attempt) : runAttempt t a = .ok t 0 := by
  cases a <;>
    simp [runAttempt, Trier.Try, Trier.TryIfErr, Trier.TryRetry,
      Trier.TryRetryIfErr, Trier.TryRetryBackoff, Trier.TryRetryBackoffIfErr, h]

theorem runAttempts_shortCircuit (t : Trier) (pf : Option GoErr)
    (h : t.err = some pf) (calls : List Attempt) :
    runAttempts t calls = .ok t 0 := by
  induction calls with
  | nil => rfl
  | cons a rest ih =>
    simp [runAttempts, runAttempt_shortCircuit t pf h a, ih]

theorem retryForever_stops (t : Trier) (fn : Nat → Option GoErr) :
    ∀ fuel i n, i ≤ n → fn n = none → (∀ m, i ≤ m → m < n → fn m ≠ none) →
      n < i + fuel → retryForever t fn i fuel = .ok t (n + 1) := by
  intro fuel
  induction fuel with
  | zero => intro i n hin _ _ hlt; omega
  | succ fuel ih =>
    intro i n hin hn hmin hlt
    by_cases hi : i = n
    · subst hi
      simp [retryForever, hn]
    · have hi2 : i < n := lt_of_le_of_ne hin hi
      have hfi : fn i ≠ none := hmin i le_rfl hi2
      match hfn : fn i with
      | none => exact absurd hfn hfi
      | some e =>
        simp only [retryForever, hfn]
        exact ih (i + 1) n (by omega) hn
          (fun m hm1 hm2 => hmin m (by omega) hm2) (by omega)

theorem retryForever_diverges (t : Trier) (fn : Nat → Option GoErr)
    (h : ∀ n, fn n ≠ none) :
    ∀ fuel i, retryForever t fn i fuel = .fuelOut (i + fuel) := by
  intro fuel
  induction fuel with
  | zero => intro i; simp [retryForever]
  | succ fuel ih =>
    intro i
    match hfn : fn i with
    | none => exact absurd hfn (h i)
    | some e =>
      simp only [retryForever, hfn]
      rw [ih (i + 1)]
      congr 1
      omega

/-- C1: for every chain whose pending failure is present, every sequence of
attempt-class calls (Try, TryIfErr, TryRetry, TryRetryIfErr, TryRetryBackoff,
TryRetryBackoffIfErr) returns the same chain with zero unit invocations, and
Err() still returns the stored failure unchanged. -/
theorem claim_C1_short_circuit (t : Trier) (p : GoErr)
    (h : t.err = some (some p)) (calls : List Attempt) :
    runAttempts t calls = .ok t 0 ∧ t.Err = .val (some p) :=
  ⟨runAttempts_shortCircuit t (some p) h calls, by simp [Trier.Err, h]⟩

/-- C1 witness: a chain pending `errors.New "boom"` ignores one call of each
attempt-class method and Err() still returns the failure. -/
theorem claim_C1_short_circuit_witness :
    trierBoom.err = some (some (GoErr.new "boom")) ∧
    runAttempts trierBoom
      [Attempt.Try unitFail, Attempt.TryIfErr errFnId unitFail,
       Attempt.TryRetry 3 unitFail 5, Attempt.TryRetryIfErr 0 errFnId unitFail 5,
       Attempt.TryRetryBackoff 0 backoffZero unitFail,
       Attempt.TryRetryBackoffIfErr 2 errFnId backoffZero unitFail] =
      .ok trierBoom 0 ∧
    trierBoom.Err = .val (some (GoErr.new "boom")) :=
  ⟨rfl,
   (claim_C1_short_circuit trierBoom (GoErr.new "boom") rfl
     [Attempt.Try unitFail, Attempt.TryIfErr errFnId unitFail,
      Attempt.TryRetry 3 unitFail 5, Attempt.TryRetryIfErr 0 errFnId unitFail 5,
      Attempt.TryRetryBackoff 0 backoffZero unitFail,
      Attempt.TryRetryBackoffIfErr 2 errFnId backoffZero unitFail]).1,
   (claim_C1_short_circuit trierBoom (GoErr.new "boom") rfl []).2⟩

/-- C2 (code bug): on a fresh chain, `TryRetry(3, fn)` with a failing unit
does not run 3 retries; the first failing iteration executes `*t.err = err`
through the still-nil pointer and panics after exactly one invocation, both
for a unit that fails twice then succeeds and for one that always fails. -/
theorem claim_C2_retry_nil_deref :
    Trier.TryRetry NewTrier 3 unitFailTwice 10 = .panicked 1 ∧
    Trier.TryRetry NewTrier 3 unitFail 10 = .panicked 1 :=
  ⟨rfl, rfl⟩

/-- C3 (code bug): `Err()` is `return *t.err`; on a freshly constructed chain
the pointer is nil and the call panics instead of returning a nil error, and
likewise after `Nil()` followed by a `Try` whose unit succeeds. -/
theorem claim_C3_err_not_total :
    Trier.Err NewTrier = .panicked ∧
    Trier.Err ((Trier.Try (Trier.Nil trierBoom) unitOk).1) = .panicked :=
  ⟨rfl, rfl⟩

/-- C4 (code bug): `TryRetryBackoff(0, backoff, fn)` on a chain with no
pending failure executes `*t.err = errors.New(...)` through the nil pointer
and panics with zero unit invocations instead of storing the sentinel; on a
chain with a pending failure it short-circuits at the guard, so the sentinel
is not stored there either. -/
theorem claim_C4_backoff_sentinel_unreachable :
    Trier.TryRetryBackoff NewTrier 0 backoffZero unitFail = .panicked 0 ∧
    Trier.TryRetryBackoff trierBoom 0 backoffZero unitFail = .ok trierBoom 0 :=
  ⟨rfl, rfl⟩

/-- C5: `TryJoin` always invokes the unit exactly once, pending failure or
not; when a failure `p` is pending and the unit fails with `e`, the stored
failure becomes `errors.Join(p, e)`, whose text contains both messages. -/
theorem claim_C5_join_always_runs (t : Trier) (fn : Nat → Option GoErr) :
    (t.TryJoin fn).2 = 1 ∧
    ∀ p e, t.err = some (some p) → fn 0 = some e →
      ((t.TryJoin fn).1).Err = .val (some (GoErr.join2 p e)) ∧
      containsMsg (GoErr.join2 p e).message p.message ∧
      containsMsg (GoErr.join2 p e).message e.message := by
  constructor
  · cases h : t.err <;> simp [Trier.TryJoin, h]
  · intro p e hp he
    refine ⟨by simp [Trier.TryJoin, hp, he, goJoin, Trier.Err], ?_, ?_⟩
    · exact ⟨[], ("\n" ++ e.message).data, by
        simp [GoErr.message, data_append]⟩
    · exact ⟨(p.message ++ "\n").data, [], by
        simp [GoErr.message, data_append]⟩

/-- C5 witness: joining "failedIfString" onto pending "failed passOrFail"
invokes the unit and stores a compound whose text contains both messages. -/
theorem claim_C5_join_always_runs_witness :
    trierPassOrFail.err = some (some (GoErr.new "failed passOrFail")) ∧
    (trierPassOrFail.TryJoin unitIfString).2 = 1 ∧
    ((trierPassOrFail.TryJoin unitIfString).1).Err =
      .val (some (GoErr.join2 (GoErr.new "failed passOrFail")
        (GoErr.new "failedIfString"))) ∧
    containsMsg (GoErr.join2 (GoErr.new "failed passOrFail")
        (GoErr.new "failedIfString")).message
      (GoErr.new "failed passOrFail").message ∧
    containsMsg (GoErr.join2 (GoErr.new "failed passOrFail")
        (GoErr.new "failedIfString")).message
      (GoErr.new "failedIfString").message :=
  ⟨rfl, (claim_C5_join_always_runs trierPassOrFail unitIfString).1,
   ((claim_C5_join_always_runs trierPassOrFail unitIfString).2
     (GoErr.new "failed passOrFail") (GoErr.new "failedIfString") rfl rfl).1,
   ((claim_C5_join_always_runs trierPassOrFail unitIfString).2
     (GoErr.new "failed passOrFail") (GoErr.new "failedIfString") rfl rfl).2.1,
   ((claim_C5_join_always_runs trierPassOrFail unitIfString).2
     (GoErr.new "failed passOrFail") (GoErr.new "failedIfString") rfl rfl).2.2⟩

/-- C6 (code bug): joining new failure "failedIfString" onto pending failure
"failed passOrFail" stores `errors.Join(pending, new)`, whose text is
"failed passOrFail\nfailedIfString" — oldest first, not the newest-first text
"failedIfString\nfailed passOrFail" asserted by the repository's own tests. -/
theorem claim_C6_join_order_oldest_first :
    ((trierPassOrFail.TryJoin unitIfString).1).Err =
      .val (some (GoErr.join2 (GoErr.new "failed passOrFail")
        (GoErr.new "failedIfString"))) ∧
    (GoErr.join2 (GoErr.new "failed passOrFail")
        (GoErr.new "failedIfString")).message =
      "failed passOrFail\nfailedIfString" ∧
    "failed passOrFail\nfailedIfString" ≠ "failedIfString\nfailed passOrFail" :=
  ⟨rfl, rfl, by decide⟩

/-- C7: on a chain with no pending failure, `Try` invokes its unit exactly
once; a failing unit's exact error is what `Err()` then returns, and a
succeeding unit stores nothing. -/
theorem claim_C7_try_exactly_once (t : Trier) (fn : Nat → Option GoErr)
    (h : t.err = none) :
    (t.Try fn).2 = 1 ∧
    (∀ e, fn 0 = some e → ((t.Try fn).1).Err = .val (some e)) ∧
    (fn 0 = none → ((t.Try fn).1).err = none) := by
  refine ⟨?_, ?_, ?_⟩
  · cases hf : fn 0 <;> simp [Trier.Try, h, hf]
  · intro e he
    simp [Trier.Try, h, he, Trier.Err]
  · intro he
    simp [Trier.Try, h, he]

/-- C7 witness: a fresh chain trying a unit that fails with "e0" makes one
invocation and Err() returns exactly that error. -/
theorem claim_C7_try_exactly_once_witness :
    NewTrier.err = none ∧
    (NewTrier.Try unitFail).2 = 1 ∧
    ((NewTrier.Try unitFail).1).Err = .val (some (GoErr.new "e0")) :=
  ⟨rfl, (claim_C7_try_exactly_once NewTrier unitFail rfl).1,
   (claim_C7_try_exactly_once NewTrier unitFail rfl).2.1 (GoErr.new "e0") rfl⟩

/-- C8 counterexample: with pending failure `errors.New "boom"` and a
succeeding unit, `TryJoin` replaces the stored error by
`errors.Join(pending, nil)` — a fresh wrapper — so what `Err()` returns is
not the unchanged pending failure value. -/
theorem claim_C8_frame_cex :
    ((trierBoom.TryJoin unitOk).1).Err ≠ trierBoom.Err := by
  decide

/-- C8 amended: when the unit succeeds and failure `p` is pending, `TryJoin`
stores `errors.Join(p, nil)`, a new wrapper around `p` with the same message
(text unchanged, value rewrapped); when the unit succeeds and no failure is
pending, no failure value is stored and `Err()` afterwards returns nil. -/
theorem claim_C8_frame_amended (t : Trier) (fn : Nat → Option GoErr)
    (hfn : fn 0 = none) :
    (∀ p, t.err = some (some p) →
      ((t.TryJoin fn).1).err = some (some (GoErr.join1 p)) ∧
      (GoErr.join1 p).message = p.message) ∧
    (t.err = none → ((t.TryJoin fn).1).Err = .val none) := by
  constructor
  · intro p hp
    exact ⟨by simp [Trier.TryJoin, hp, hfn, goJoin], rfl⟩
  · intro h
    simp [Trier.TryJoin, h, hfn, Trier.Err]

/-- C8 witness: the amended frame condition at pending "boom" and a
succeeding unit. -/
theorem claim_C8_frame_amended_witness :
    unitOk 0 = none ∧
    trierBoom.err = some (some (GoErr.new "boom")) ∧
    ((trierBoom.TryJoin unitOk).1).err =
      some (some (GoErr.join1 (GoErr.new "boom"))) ∧
    (GoErr.join1 (GoErr.new "boom")).message = (GoErr.new "boom").message :=
  ⟨rfl, rfl,
   ((claim_C8_frame_amended trierBoom unitOk rfl).1 (GoErr.new "boom") rfl).1,
   ((claim_C8_frame_amended trierBoom unitOk rfl).1 (GoErr.new "boom") rfl).2⟩

/-- C9: `TryJoin` on a failure-free chain with a succeeding unit stores a
non-nil pointer to the nil error: `Err()` then returns nil, yet every
attempt-class call short-circuits with zero invocations, until `Nil()`
clears the slot and a subsequent `Try` invokes its unit again. -/
theorem claim_C9_join_poisons_chain (t : Trier) (fn : Nat → Option GoErr)
    (h : t.err = none) (hfn : fn 0 = none) (calls : List Attempt)
    (fn2 : Nat → Option GoErr) :
    ((t.TryJoin fn).1).err = some none ∧
    ((t.TryJoin fn).1).Err = .val none ∧
    runAttempts (t.TryJoin fn).1 calls = .ok (t.TryJoin fn).1 0 ∧
    (((t.TryJoin fn).1).Nil).err = none ∧
    ((((t.TryJoin fn).1).Nil).Try fn2).2 = 1 := by
  have hs : (t.TryJoin fn).1 = ⟨some none⟩ := by
    simp [Trier.TryJoin, h, hfn]
  rw [hs]
  refine ⟨rfl, rfl, runAttempts_shortCircuit ⟨some none⟩ none rfl calls, rfl, ?_⟩
  cases h2 : fn2 0 <;> simp [Trier.Nil, Trier.Try, h2]

/-- C9 witness: a fresh chain, a succeeding join, then one Try and one
TryRetryBackoff are both skipped; Nil() restores execution. -/
theorem claim_C9_join_poisons_chain_witness :
    NewTrier.err = none ∧ unitOk 0 = none ∧
    ((NewTrier.TryJoin unitOk).1).err = some none ∧
    ((NewTrier.TryJoin unitOk).1).Err = .val none ∧
    runAttempts (NewTrier.TryJoin unitOk).1
      [Attempt.Try unitFail, Attempt.TryRetryBackoff 3 backoffZero unitFail] =
      .ok (NewTrier.TryJoin unitOk).1 0 ∧
    (((NewTrier.TryJoin unitOk).1).Nil).err = none ∧
    ((((NewTrier.TryJoin unitOk).1).Nil).Try unitFail).2 = 1 :=
  ⟨rfl, rfl,
   (claim_C9_join_poisons_chain NewTrier unitOk rfl rfl
     [Attempt.Try unitFail, Attempt.TryRetryBackoff 3 backoffZero unitFail]
     unitFail).1,
   (claim_C9_join_poisons_chain NewTrier unitOk rfl rfl
     [Attempt.Try unitFail, Attempt.TryRetryBackoff 3 backoffZero unitFail]
     unitFail).2.1,
   (claim_C9_join_poisons_chain NewTrier unitOk rfl rfl
     [Attempt.Try unitFail, Attempt.TryRetryBackoff 3 backoffZero unitFail]
     unitFail).2.2.1,
   (claim_C9_join_poisons_chain NewTrier unitOk rfl rfl
     [Attempt.Try unitFail, Attempt.TryRetryBackoff 3 backoffZero unitFail]
     unitFail).2.2.2.1,
   (claim_C9_join_poisons_chain NewTrier unitOk rfl rfl
     [Attempt.Try unitFail, Attempt.TryRetryBackoff 3 backoffZero unitFail]
     unitFail).2.2.2.2⟩

/-- C10: on a failure-free chain with limit ≤ 0, TryRetryIfErr coincides with
TryRetry (the transform is never applied); the loop returns, with the chain
unchanged and every iteration's failure discarded, exactly when the unit
first succeeds — after n+1 invocations when n is the first succeeding index —
and runs out of any amount of fuel when the unit never succeeds. -/
theorem claim_C10_unbounded_retry (t : Trier) (limit : Int)
    (errFn : Option GoErr → Option GoErr) (fn : Nat → Option GoErr)
    (ht : t.err = none) (hl : limit ≤ 0) :
    (∀ fuel, t.TryRetryIfErr limit errFn fn fuel = t.TryRetry limit fn fuel) ∧
    (∀ n, (∀ m, m < n → fn m ≠ none) → fn n = none →
      ∀ fuel, n < fuel → t.TryRetry limit fn fuel = .ok t (n + 1)) ∧
    ((∀ n, fn n ≠ none) → ∀ fuel, t.TryRetry limit fn fuel = .fuelOut fuel) := by
  refine ⟨?_, ?_, ?_⟩
  · intro fuel
    simp [Trier.TryRetry, Trier.TryRetryIfErr, ht, hl]
  · intro n hmin hn fuel hfuel
    have hr : t.TryRetry limit fn fuel = retryForever t fn 0 fuel := by
      simp [Trier.TryRetry, ht, hl]
    rw [hr]
    exact retryForever_stops t fn fuel 0 n (Nat.zero_le n) hn
      (fun m _ hm2 => hmin m hm2) (by omega)
  · intro hall fuel
    have hr : t.TryRetry limit fn fuel = retryForever t fn 0 fuel := by
      simp [Trier.TryRetry, ht, hl]
    rw [hr]
    simpa using retryForever_diverges t fn hall fuel 0

/-- C10 witness: with limit 0 on a fresh chain, a unit failing twice then
succeeding is invoked 3 times, the chain is unchanged, and the transform was
irrelevant. -/
theorem claim_C10_unbounded_retry_witness :
    NewTrier.err = none ∧ (0 : Int) ≤ 0 ∧
    Trier.TryRetryIfErr NewTrier 0 errFnId unitFailTwice 5 =
      Trier.TryRetry NewTrier 0 unitFailTwice 5 ∧
    Trier.TryRetry NewTrier 0 unitFailTwice 5 = .ok NewTrier 3 :=
  ⟨rfl, by decide,
   (claim_C10_unbounded_retry NewTrier 0 errFnId unitFailTwice rfl
     (by decide)).1 5,
   (claim_C10_unbounded_retry NewTrier 0 errFnId unitFailTwice rfl
     (by decide)).2.1 2 (by decide) rfl 5 (by decide)⟩
